import Mathlib

/-!
Verification development for the crypto-sentiment-api repository.

Payment side: shallow embedding of the x402Middleware payment gate
(src/sentiment-api.js lines 690-773, identical in src/unnamed/part_002
lines 26-117) together with its two verifiers
verifyPaymentWithFacilitator (lines 775-813) and verifyPaymentOnChain
(lines 815-856).  External network effects (the facilitator HTTP call
and the chain RPC) are modelled as oracle values passed in explicitly;
the in-memory paymentsDB array is modelled as an explicit list threaded
through the middleware.

Sentiment side: shallow embedding of analyzeWithVader
(src/unnamed/part_002 lines 1416-1501, identical in src/unnamed/part_004
lines 239-319), of analyzeSentiments (src/sentiment-api.js lines
902-936, identical in src/unnamed/part_002 lines 267-301), and of the
dedupe filter in the sentiment route handler (src/unnamed/part_002
lines 1657-1664, identical in src/unnamed/part_004 lines 1001-1008).
The external VADER polarity scorer and the Math.log10 engagement
weighting are modelled as function parameters; JavaScript numbers are
modelled as rationals.
-/

namespace CryptoSentiment

/-- Payment payload decoded from the base64 x-payment header.  The
middleware reads exactly the fields transactionHash, signature and from
(named fromAddr here because from is reserved in Lean); each may be
absent, which models a missing JSON field (undefined). -/
structure PaymentData where
  transactionHash : Option String
  signature : Option String
  fromAddr : Option String
deriving DecidableEq, Repr

/-- JavaScript truthiness test for an optional string: undefined and the
empty string are falsy. -/
def jsTruthy : Option String → Bool
  | none => false
  | some s => s ≠ ""

/-- JavaScript expression a or-else b on optional strings: returns a
when a is truthy, otherwise b unchanged. -/
def jsOrElse (a b : Option String) : Option String :=
  if jsTruthy a then a else b

/-- JavaScript expression s or-else d where d is a plain default
string. -/
def jsOrDefault (s : Option String) (d : String) : String :=
  match jsOrElse s (some d) with
  | some t => t
  | none => d

/-- JavaScript toLowerCase on the ASCII fragment the code uses,
working on the underlying character list. -/
def jsToLower (s : String) : String := String.mk (s.data.map Char.toLower)

/-- JavaScript slice(0, n) and substring(0, n) on a string: the first n
characters, or the whole string when it is shorter. -/
def jsSlice (s : String) (n : Nat) : String := String.mk (s.data.take n)

/-- Replay-protection identifier derived from a payment payload, from
the line paymentId = paymentData.transactionHash or-else
paymentData.signature slice 0 20 (src/sentiment-api.js line 735).  When
both fields are absent the identifier is undefined, modelled as none. -/
def paymentId (paymentData : PaymentData) : Option String :=
  jsOrElse paymentData.transactionHash (paymentData.signature.map (fun s => jsSlice s 20))

/-- One record of the in-memory paymentsDB array (src/sentiment-api.js
lines 745-751). -/
structure PaymentRecord where
  id : Option String
  timestamp : String
  amount : String
  coin : String
  fromAddr : String
deriving DecidableEq, Repr

/-- Outcome of the facilitator HTTP POST as observed by
verifyPaymentWithFacilitator: the fetch or body parse threw
(timeout, unreachable host, invalid body), or it completed with a
non-2xx status (response.ok false), or it completed with a JSON body
carrying the fields verified and status. -/
inductive FacilitatorOutcome where
  | networkError
  | httpError (status : Nat)
  | response (verified : Bool) (status : String)
deriving DecidableEq, Repr

/-- Transaction object returned by provider.getTransaction; only the
field to is read by the code, and it may be null; to is reserved
in Lean so the field is named toAddr. -/
structure Tx where
  toAddr : Option String
deriving DecidableEq, Repr

/-- Receipt object returned by provider.getTransactionReceipt; only the
numeric field status is read by the code. -/
structure Receipt where
  status : Nat
deriving DecidableEq, Repr

/-- Chain RPC oracle for verifyPaymentOnChain: either any RPC call
throws (provider unreachable), or lookups by transaction hash are
served by the two given functions (none models a null result). -/
inductive ChainEnv where
  | unreachable
  | reachable (getTransaction : String → Option Tx) (getTransactionReceipt : String → Option Receipt)

/-- Shallow embedding of verifyPaymentOnChain (src/sentiment-api.js
lines 815-856).  The wallet argument is the configured recipient
address (WALLET_ADDRESS).  The expectedAmount argument is received but,
as in the source, never read: the function checks only that the
transaction exists, that its receipt status equals 1, and that the
transaction recipient matches the wallet case-insensitively. -/
def verifyPaymentOnChain (wallet : String) (chain : ChainEnv)
    (paymentData : PaymentData) (expectedAmount : String) : Bool :=
  match chain with
  | .unreachable => false
  | .reachable getTransaction getTransactionReceipt =>
    match jsOrElse paymentData.transactionHash none with
    | none => false
    | some txHash =>
      match getTransaction txHash with
      | none => false
      | some tx =>
        match getTransactionReceipt txHash with
        | none => false
        | some receipt =>
          if receipt.status ≠ 1 then false
          else
            let expectedRecipient := jsToLower wallet
            match tx.toAddr with
            | none => false
            | some toAddr =>
              if jsToLower toAddr ≠ jsToLower expectedRecipient then false else true

/-- Shallow embedding of verifyPaymentWithFacilitator
(src/sentiment-api.js lines 775-813).  A thrown fetch or body parse
(networkError) falls back to verifyPaymentOnChain; a completed non-2xx
response returns false with no fallback; a completed 2xx response is
accepted exactly when verified is true and status is confirmed. -/
def verifyPaymentWithFacilitator (wallet : String) (fac : FacilitatorOutcome)
    (chain : ChainEnv) (paymentData : PaymentData) (expectedAmount : String) : Bool :=
  match fac with
  | .networkError => verifyPaymentOnChain wallet chain paymentData expectedAmount
  | .httpError _ => false
  | .response verified status => verified && status == "confirmed"

/-- Request header state seen by the middleware: header absent, header
present but the base64-of-JSON decode throws, or header decoded into a
payment payload. -/
inductive Header where
  | absent
  | malformed
  | valid (paymentData : PaymentData)

/-- Outcome of one middleware invocation: the 402 challenge response,
a denial with its HTTP status and message, or admission (next()). -/
inductive Decision where
  | challenge402
  | deny (httpStatus : Nat) (errorMsg : String)
  | admitted
deriving DecidableEq, Repr

/-- Result of one middleware invocation: the decision, the paymentsDB
array after the call, and whether verifyPaymentWithFacilitator was
invoked during the call (it is awaited unconditionally on every decoded
payload, src/sentiment-api.js line 726). -/
structure MiddlewareResult where
  decision : Decision
  paymentsDB : List PaymentRecord
  facilitatorCalled : Bool

/-- Shallow embedding of the handler returned by x402Middleware(price)
(src/sentiment-api.js lines 690-773).  timestamp stands for the wall
clock reading and reqCoin for req.params.coin.  The replay lookup and
the push of the new record are adjacent synchronous steps with no await
between them in the source, so they form one atomic step here. -/
def x402Middleware (wallet : String) (fac : FacilitatorOutcome) (chain : ChainEnv)
    (price timestamp : String) (reqCoin : Option String)
    (paymentsDB : List PaymentRecord) (header : Header) : MiddlewareResult :=
  match header with
  | .absent => ⟨.challenge402, paymentsDB, false⟩
  | .malformed => ⟨.deny 400 "Payment verification failed", paymentsDB, false⟩
  | .valid paymentData =>
    let isValid := verifyPaymentWithFacilitator wallet fac chain paymentData price
    if !isValid then
      ⟨.deny 403 "Could not verify payment with facilitator", paymentsDB, true⟩
    else
      let pid := paymentId paymentData
      if paymentsDB.any (fun p => p.id == pid) then
        ⟨.deny 403 "This payment has already been redeemed", paymentsDB, true⟩
      else
        let paymentRecord : PaymentRecord :=
          ⟨pid, timestamp, price, jsOrDefault reqCoin "unknown",
            jsOrDefault paymentData.fromAddr "unknown"⟩
        ⟨ .admitted, paymentsDB ++ [paymentRecord], true⟩

/-- The hard ledger invariant: no two records of the paymentsDB array
carry the same identifier. -/
def ledgerNoDupIds (paymentsDB : List PaymentRecord) : Prop :=
  paymentsDB.Pairwise (fun a b => a.id ≠ b.id)

/-- One Reddit post as mapped by the collectors feeding analyzeWithVader
(title, selftext, score, num comments, subreddit). -/
structure Post where
  title : String
  selftext : String
  score : Int
  numComments : Int
  subreddit : String
deriving DecidableEq, Repr

/-- JavaScript toUpperCase on the ASCII fragment the code uses. -/
def jsToUpper (s : String) : String := String.mk (s.data.map Char.toUpper)

/-- Boolean test that the second character list starts the first one. -/
def listStartsWith : List Char → List Char → Bool
  | _, [] => true
  | [], _ :: _ => false
  | a :: as, b :: bs => a == b && listStartsWith as bs

/-- Boolean test that the pattern occurs contiguously in the haystack. -/
def listContainsSeq (pat : List Char) : List Char → Bool
  | [] => listStartsWith [] pat
  | c :: rest => listStartsWith (c :: rest) pat || listContainsSeq pat rest

/-- JavaScript String.includes: sub occurs contiguously in s. -/
def jsIncludes (s sub : String) : Bool := listContainsSeq sub.data s.data

/-- JavaScript Math.round, which rounds half toward positive infinity. -/
def jsMathRound (q : ℚ) : ℤ := ⌊q + 1 / 2⌋

/-- JavaScript Number.toFixed(digits) followed by parseFloat, modelled
as rounding to the nearest multiple of ten to the minus digits. -/
def toFixed (digits : Nat) (q : ℚ) : ℚ :=
  (round (q * 10 ^ digits) : ℤ) / 10 ^ digits

/-- Per-category mention counts of the aggregation output. -/
structure Breakdown where
  positive : Nat
  negative : Nat
  neutral : Nat
deriving DecidableEq, Repr

/-- One entry of the analyzedPosts array built inside analyzeWithVader:
truncated title, subreddit, fixed-precision polarity score, raw post
score used as the engagement sort key. -/
structure AnalyzedPost where
  title : String
  subreddit : String
  score : ℚ
  engagement : Int
deriving DecidableEq, Repr

/-- Return shape of analyzeWithVader. -/
structure VaderAnalysis where
  sentiment : String
  score : ℚ
  confidence : ℚ
  postsAnalyzed : Nat
  breakdown : Breakdown
  topPosts : List AnalyzedPost
deriving DecidableEq, Repr

/-- Text handed to the VADER scorer for one post: title, a space,
selftext, truncated to 1000 characters (src/unnamed/part_002 line
1444). -/
def vaderText (post : Post) : String :=
  jsSlice (post.title ++ " " ++ post.selftext) 1000

/-- Engagement weight of one post: log10 of max(score,1) plus
max(numComments,1) plus 1 (src/unnamed/part_002 line 1448).  Math.log10
is an external numeric capability and enters as the parameter log10. -/
def engagementWeight (log10 : ℚ → ℚ) (post : Post) : ℚ :=
  log10 ((max post.score 1 + max post.numComments 1 + 1 : ℤ) : ℚ)

/-- Category counts accumulated by the loop of analyzeWithVader: a
compound of at least 0.05 counts positive, at most -0.05 counts
negative, anything else neutral (src/unnamed/part_002 lines
1455-1461). -/
def vaderBreakdown (compound : Post → ℚ) : List Post → Breakdown
  | [] => ⟨0, 0, 0⟩
  | p :: ps =>
    let b := vaderBreakdown compound ps
    if compound p ≥ 1 / 20 then ⟨b.positive + 1, b.negative, b.neutral⟩
    else if compound p ≤ -(1 / 20) then ⟨b.positive, b.negative + 1, b.neutral⟩
    else ⟨b.positive, b.negative, b.neutral + 1⟩

/-- Five-band classification of the normalized score
(src/unnamed/part_002 lines 1476-1481). -/
def bandLabel (normalizedScore : ℚ) : String :=
  if normalizedScore ≥ 1 / 2 then "very bullish"
  else if normalizedScore ≥ 3 / 20 then "bullish"
  else if normalizedScore ≤ -(1 / 2) then "very bearish"
  else if normalizedScore ≤ -(3 / 20) then "bearish"
  else "neutral"

/-- Stable insertion of one analyzed post into a list sorted by
engagement descending: existing entries of equal engagement stay in
front, matching the stable JavaScript Array.sort comparator
(b.engagement - a.engagement). -/
def insertByEngagementDesc (a : AnalyzedPost) : List AnalyzedPost → List AnalyzedPost
  | [] => [a]
  | b :: bs =>
    if b.engagement ≥ a.engagement then b :: insertByEngagementDesc a bs
    else a :: b :: bs

/-- Stable sort by engagement descending (src/unnamed/part_002 line
1491). -/
def sortByEngagementDesc : List AnalyzedPost → List AnalyzedPost
  | [] => []
  | a :: as => insertByEngagementDesc a (sortByEngagementDesc as)

/-- Relevance filter of analyzeWithVader followed by the fallback to
the unfiltered posts when the filter empties the list
(src/unnamed/part_002 lines 1429-1436). -/
def vaderPostsToAnalyze (coinNames : String → Option String)
    (posts : List Post) (coin : String) : List Post :=
  let coinName := (coinNames coin).getD coin
  let relevantPosts := posts.filter (fun post =>
    let text := jsToUpper (post.title ++ " " ++ post.selftext)
    jsIncludes text coin || jsIncludes text (jsToUpper coinName))
  if relevantPosts.length > 0 then relevantPosts else posts

/-- Clamped engagement-weighted average compound of analyzeWithVader
(src/unnamed/part_002 lines 1438-1452 and 1471-1473): weighted sum over
weight sum when the weight sum is positive, zero otherwise, clamped to
the interval from -1 to 1. -/
def vaderNormalizedScore (scorer : String → ℚ) (log10 : ℚ → ℚ)
    (postsToAnalyze : List Post) : ℚ :=
  let compound := fun post => scorer (vaderText post)
  let weight := fun post => engagementWeight log10 post
  let totalScore := (postsToAnalyze.map (fun p => compound p * weight p)).sum
  let totalWeight := (postsToAnalyze.map weight).sum
  let avgScore := if totalWeight > 0 then totalScore / totalWeight else 0
  max (-1) (min 1 avgScore)

/-- Confidence computation of analyzeWithVader from the category counts
(src/unnamed/part_002 lines 1483-1488): agreement share times 0.75 plus
a sample-size bonus of at most 0.25, capped at 0.95. -/
def vaderConfidence (breakdown : Breakdown) : ℚ :=
  let total := breakdown.positive + breakdown.negative + breakdown.neutral
  let maxCategory := max breakdown.positive (max breakdown.negative breakdown.neutral)
  let agreement : ℚ := if total > 0 then (maxCategory : ℚ) / (total : ℚ) else 0
  let sampleBonus : ℚ := min ((total : ℚ) / 30) 1 * (1 / 4)
  min (agreement * (3 / 4) + sampleBonus) (19 / 20)

/-- Shallow embedding of analyzeWithVader (src/unnamed/part_002 lines
1416-1501, identical in src/unnamed/part_004 lines 239-319).  The VADER
compound scorer and Math.log10 are external capabilities and enter as
the parameters scorer and log10; coinNames is the COIN_NAMES lookup
table. -/
def analyzeWithVader (scorer : String → ℚ) (log10 : ℚ → ℚ)
    (coinNames : String → Option String) (posts : List Post) (coin : String) :
    VaderAnalysis :=
  if posts = [] then ⟨"neutral", 0, 0, 0, ⟨0, 0, 0⟩, []⟩
  else
    let postsToAnalyze := vaderPostsToAnalyze coinNames posts coin
    let compound := fun post => scorer (vaderText post)
    let breakdown := vaderBreakdown compound postsToAnalyze
    let analyzedPosts := postsToAnalyze.map (fun p =>
      (⟨jsSlice p.title 120, p.subreddit, toFixed 3 (compound p), p.score⟩ : AnalyzedPost))
    let normalizedScore := vaderNormalizedScore scorer log10 postsToAnalyze
    ⟨bandLabel normalizedScore, toFixed 3 normalizedScore,
      toFixed 2 (vaderConfidence breakdown),
      postsToAnalyze.length, breakdown, (sortByEngagementDesc analyzedPosts).take 5⟩

/-- One mention as produced by fetchRedditData in the sentiment-api.js
variant: combined title-and-selftext text, post score, subreddit. -/
structure Mention where
  text : String
  score : Int
  subreddit : String
deriving DecidableEq, Repr

/-- Return shape of analyzeSentiments: average compound plus a
percentage split of the three categories. -/
structure SentimentsSummary where
  vaderAvg : ℚ
  positive : ℤ
  negative : ℤ
  neutral : ℤ
  totalMentions : Nat
deriving DecidableEq, Repr

/-- Shallow embedding of analyzeSentiments (src/sentiment-api.js lines
902-936, identical in src/unnamed/part_002 lines 267-301): strict
thresholds (compound strictly above 0.05 positive, strictly below
-0.05 negative), percentages via Math.round, and a hard-coded
33/33/34 split at zero mentions. -/
def analyzeSentiments (scorer : String → ℚ) (texts : List Mention) : SentimentsSummary :=
  if texts = [] then ⟨0, 33, 33, 34, 0⟩
  else
    let totalVader := (texts.map (fun item => scorer item.text)).sum
    let positive := texts.countP (fun item => decide (scorer item.text > 1 / 20))
    let negative := texts.countP (fun item =>
      decide (¬scorer item.text > 1 / 20 ∧ scorer item.text < -(1 / 20)))
    let neutral := texts.countP (fun item =>
      decide (¬scorer item.text > 1 / 20 ∧ ¬scorer item.text < -(1 / 20)))
    let count := texts.length
    ⟨totalVader / count,
      jsMathRound (((positive : ℚ) / count) * 100),
      jsMathRound (((negative : ℚ) / count) * 100),
      jsMathRound (((neutral : ℚ) / count) * 100),
      count⟩

/-- Equality key used by the dedupe filter: the post title lowercased
then truncated to 50 characters (src/unnamed/part_002 line 1660). -/
def dedupeKey (post : Post) : String :=
  jsSlice (jsToLower post.title) 50

/-- Dedupe filter with its accumulated seen-set of keys
(src/unnamed/part_002 lines 1657-1664): a post whose key was already
seen is dropped, otherwise it is kept and its key added. -/
def dedupeAux (seen : List String) : List Post → List Post
  | [] => []
  | p :: ps =>
    if seen.contains (dedupeKey p) then dedupeAux seen ps
    else p :: dedupeAux (dedupeKey p :: seen) ps

/-- The dedupe filter of the sentiment route handler, starting from an
empty seen-set. -/
def dedupe (posts : List Post) : List Post := dedupeAux [] posts

/-- Modelled from the spec: the equality relation the specification
ascribes to the deduplicator, namely agreement of the case-folded
fixed-length truncation of the full mention text, where the mention
text of a post is its title followed by its selftext (the text the
aggregation engine scores).  Written to be compared with dedupeKey,
which the code computes from the title alone. -/
def specTextKey (post : Post) : String :=
  jsSlice (jsToLower (post.title ++ " " ++ post.selftext)) 50

/-- C10: the admit/deny verdict of the on-chain fallback verifier is
independent of the expected payment amount: for every payment payload,
chain state and every two expectedAmount values, verifyPaymentOnChain
returns the same result, because it checks only transaction existence,
receipt success and recipient match. -/
theorem C10_onchain_amount_independent (wallet : String) (chain : ChainEnv)
    (paymentData : PaymentData) (amount₁ amount₂ : String) :
    verifyPaymentOnChain wallet chain paymentData amount₁ =
      verifyPaymentOnChain wallet chain paymentData amount₂ := rfl

/-- C2 counterexample: the facilitator completes with HTTP 500, a
non-2xx response, while the chain holds a confirmed transaction paid to
the expected recipient, so the on-chain verifier would admit; the code
still denies, because a completed non-2xx response returns false
without invoking the fallback. -/
theorem C2_counterexample_non2xx_skips_fallback :
    verifyPaymentWithFacilitator "0xAB" (.httpError 500)
        (.reachable (fun _ => some ⟨some "0xab"⟩) (fun _ => some ⟨1⟩))
        ⟨some "0xdead", none, none⟩ "0.03" = false
    ∧ verifyPaymentOnChain "0xAB"
        (.reachable (fun _ => some ⟨some "0xab"⟩) (fun _ => some ⟨1⟩))
        ⟨some "0xdead", none, none⟩ "0.03" = true := by
  exact ⟨rfl, by decide⟩

/-- C2 corrected: the on-chain fallback verifier is invoked exactly
when the facilitator call throws (timeout, unreachable host, invalid
body) and its verdict then decides admission; a facilitator call that
completes with a non-2xx response denies without consulting the chain;
and when the facilitator throws and the chain is also unreachable the
payment is denied. -/
theorem C2_fallback_policy (wallet : String) (chain : ChainEnv)
    (paymentData : PaymentData) (expectedAmount : String) :
    (verifyPaymentWithFacilitator wallet .networkError chain paymentData expectedAmount =
        verifyPaymentOnChain wallet chain paymentData expectedAmount)
    ∧ (∀ s : Nat,
        verifyPaymentWithFacilitator wallet (.httpError s) chain paymentData expectedAmount
          = false)
    ∧ verifyPaymentWithFacilitator wallet .networkError .unreachable paymentData expectedAmount
        = false :=
  ⟨rfl, fun _ => rfl, rfl⟩

/-- C6 counterexample: two distinct payment payloads whose signatures
agree on their first 20 characters derive the same PaymentIdentifier,
refuting the claim that distinct assertions never collide. -/
theorem C6_counterexample_signature_collision :
    ((⟨none, some "ABCDEFGHIJKLMNOPQRSTxx", none⟩ : PaymentData) ≠
        ⟨none, some "ABCDEFGHIJKLMNOPQRSTyy", none⟩)
    ∧ paymentId ⟨none, some "ABCDEFGHIJKLMNOPQRSTxx", none⟩ =
        paymentId ⟨none, some "ABCDEFGHIJKLMNOPQRSTyy", none⟩ := by
  exact ⟨by decide, rfl⟩

/-- C6 corrected: the derived PaymentIdentifier is a deterministic
function of the transactionHash and signature fields of the assertion,
but distinct assertions can share an identifier (for example when only
a field the derivation ignores differs, or when two signatures agree on
their first 20 characters). -/
theorem C6_paymentId_deterministic_with_collisions :
    (∀ p q : PaymentData, p.transactionHash = q.transactionHash →
        p.signature = q.signature → paymentId p = paymentId q)
    ∧ ∃ p q : PaymentData, p ≠ q ∧ paymentId p = paymentId q := by
  constructor
  · intro p q h₁ h₂
    unfold paymentId
    rw [h₁, h₂]
  · exact ⟨⟨some "0xdead", none, none⟩, ⟨some "0xdead", none, some "0xa11ce"⟩,
      by decide, rfl⟩

/-- C6 witness: the determinism half applied to two concrete payloads
agreeing on transactionHash and signature. -/
theorem C6_witness :
    paymentId ⟨some "0xdead", none, none⟩ =
      paymentId ⟨some "0xdead", none, some "0xa11ce"⟩ :=
  C6_paymentId_deterministic_with_collisions.1 _ _ rfl rfl

/-- C7 counterexample: the analyzeSentiments aggregator, on the empty
mention list, does not return an all-zero breakdown: it fabricates a
33/33/34 percentage split, a sentinel distinguishable only by
totalMentions being zero. -/
theorem C7_counterexample_sentinel_breakdown :
    (analyzeSentiments (fun _ => 0) []).positive = 33
    ∧ (analyzeSentiments (fun _ => 0) []).negative = 33
    ∧ (analyzeSentiments (fun _ => 0) []).neutral = 34
    ∧ (analyzeSentiments (fun _ => 0) []).totalMentions = 0 :=
  ⟨rfl, rfl, rfl, rfl⟩

/-- C7 corrected: the VADER aggregation engine analyzeWithVader, on the
empty mention list and for every scorer, weighting and coin, returns
score 0, confidence 0, label neutral, zero posts analyzed, an all-zero
breakdown and an empty top-posts list; the analyzeSentiments variant
instead returns a sentinel 33/33/34 percentage breakdown with average
0 and totalMentions 0 at zero mentions. -/
theorem C7_analyzeWithVader_empty (scorer : String → ℚ) (log10 : ℚ → ℚ)
    (coinNames : String → Option String) (coin : String) :
    analyzeWithVader scorer log10 coinNames [] coin =
      ⟨"neutral", 0, 0, 0, ⟨0, 0, 0⟩, []⟩ := rfl

/-- C4: every middleware call that admits appends exactly one record to
the paymentsDB ledger, and every call that does not admit (402
challenge, malformed assertion, verification failure, replay) leaves
the ledger unchanged. -/
theorem C4_ledger_write_discipline (wallet : String) (fac : FacilitatorOutcome)
    (chain : ChainEnv) (price timestamp : String) (reqCoin : Option String)
    (paymentsDB : List PaymentRecord) (header : Header) :
    ((x402Middleware wallet fac chain price timestamp reqCoin paymentsDB header).paymentsDB
        = paymentsDB
      ∧ (x402Middleware wallet fac chain price timestamp reqCoin paymentsDB header).decision
        ≠ .admitted)
    ∨ (∃ r, (x402Middleware wallet fac chain price timestamp reqCoin paymentsDB
          header).paymentsDB = paymentsDB ++ [r]
      ∧ (x402Middleware wallet fac chain price timestamp reqCoin paymentsDB header).decision
        = .admitted) := by
  cases header with
  | absent => exact Or.inl ⟨rfl, by simp [x402Middleware]⟩
  | malformed => exact Or.inl ⟨rfl, by simp [x402Middleware]⟩
  | valid p =>
    cases hv : verifyPaymentWithFacilitator wallet fac chain p price with
    | false => exact Or.inl ⟨by simp [x402Middleware, hv], by simp [x402Middleware, hv]⟩
    | true =>
      cases ha : paymentsDB.any (fun r => r.id == paymentId p) with
      | true => exact Or.inl ⟨by simp [x402Middleware, hv, ha], by simp [x402Middleware, hv, ha]⟩
      | false =>
        exact Or.inr ⟨⟨paymentId p, timestamp, price, jsOrDefault reqCoin "unknown",
          jsOrDefault p.fromAddr "unknown"⟩,
          by simp [x402Middleware, hv, ha], by simp [x402Middleware, hv, ha]⟩

/-- C4 witness: the write discipline evaluated on a concrete call with
no payment header. -/
theorem C4_witness :
    (((x402Middleware "w" .networkError .unreachable "0.03" "t" none [] .absent).paymentsDB
        = []
      ∧ (x402Middleware "w" .networkError .unreachable "0.03" "t" none [] .absent).decision
        ≠ .admitted)
    ∨ (∃ r, (x402Middleware "w" .networkError .unreachable "0.03" "t" none []
          .absent).paymentsDB = [] ++ [r]
      ∧ (x402Middleware "w" .networkError .unreachable "0.03" "t" none [] .absent).decision
        = .admitted)) :=
  C4_ledger_write_discipline "w" .networkError .unreachable "0.03" "t" none [] .absent

/-- C3 counterexample: a replayed identifier (the ledger already holds
a record with the same id) is presented while the facilitator answers
confirmed; the middleware still invokes the facilitator, and only then
denies as already used.  With a failing facilitator the same replayed
assertion is instead denied as a verification failure, not as already
used. -/
theorem C3_counterexample_facilitator_called_on_replay :
    ((x402Middleware "w" (.response true "confirmed") .unreachable "0.03" "t1" none
        [⟨some "0xdead", "t0", "0.03", "BTC", "alice"⟩]
        (.valid ⟨some "0xdead", none, none⟩)).facilitatorCalled = true)
    ∧ ((x402Middleware "w" (.response true "confirmed") .unreachable "0.03" "t1" none
        [⟨some "0xdead", "t0", "0.03", "BTC", "alice"⟩]
        (.valid ⟨some "0xdead", none, none⟩)).decision =
          .deny 403 "This payment has already been redeemed")
    ∧ ((x402Middleware "w" (.httpError 500) .unreachable "0.03" "t1" none
        [⟨some "0xdead", "t0", "0.03", "BTC", "alice"⟩]
        (.valid ⟨some "0xdead", none, none⟩)).decision =
          .deny 403 "Could not verify payment with facilitator") := by
  exact ⟨rfl, rfl, rfl⟩

/-- C3 corrected: the facilitator delegation precedes the ledger
membership check: the facilitator verifier is invoked on every decoded
assertion, replayed or not, and a replayed identifier is denied as
already used only after the facilitator (or its fallback) verification
succeeds. -/
theorem C3_facilitator_before_replay_check (wallet : String) (fac : FacilitatorOutcome)
    (chain : ChainEnv) (price timestamp : String) (reqCoin : Option String)
    (paymentsDB : List PaymentRecord) (paymentData : PaymentData) :
    ((x402Middleware wallet fac chain price timestamp reqCoin paymentsDB
        (.valid paymentData)).facilitatorCalled = true)
    ∧ (verifyPaymentWithFacilitator wallet fac chain paymentData price = true →
        paymentsDB.any (fun r => r.id == paymentId paymentData) = true →
        (x402Middleware wallet fac chain price timestamp reqCoin paymentsDB
          (.valid paymentData)).decision =
            .deny 403 "This payment has already been redeemed") := by
  constructor
  · cases hv : verifyPaymentWithFacilitator wallet fac chain paymentData price with
    | false => simp [x402Middleware, hv]
    | true =>
      cases ha : paymentsDB.any (fun r => r.id == paymentId paymentData) <;>
        simp [x402Middleware, hv, ha]
  · intro hv ha
    simp [x402Middleware, hv, ha]

/-- C3 witness: the amended theorem applied to a ledger already holding
the identifier and a facilitator that confirms. -/
theorem C3_witness :
    ((x402Middleware "w" (.response true "confirmed") .unreachable "0.03" "t1" none
        [⟨some "0xdead", "t0", "0.03", "BTC", "alice"⟩]
        (.valid ⟨some "0xdead", none, none⟩)).facilitatorCalled = true)
    ∧ ((x402Middleware "w" (.response true "confirmed") .unreachable "0.03" "t1" none
        [⟨some "0xdead", "t0", "0.03", "BTC", "alice"⟩]
        (.valid ⟨some "0xdead", none, none⟩)).decision =
          .deny 403 "This payment has already been redeemed") :=
  ⟨(C3_facilitator_before_replay_check "w" (.response true "confirmed") .unreachable
      "0.03" "t1" none [⟨some "0xdead", "t0", "0.03", "BTC", "alice"⟩]
      ⟨some "0xdead", none, none⟩).1,
   (C3_facilitator_before_replay_check "w" (.response true "confirmed") .unreachable
      "0.03" "t1" none [⟨some "0xdead", "t0", "0.03", "BTC", "alice"⟩]
      ⟨some "0xdead", none, none⟩).2 rfl rfl⟩

/-- C5 counterexample: with the facilitator throwing and the chain
unreachable, both verifiers fail, and the middleware answers 403, not
the 500 the claim requires. -/
theorem C5_counterexample_both_down_gives_403 :
    (x402Middleware "w" .networkError .unreachable "0.03" "t" none []
        (.valid ⟨some "0xdead", none, none⟩)).decision =
      .deny 403 "Could not verify payment with facilitator" := rfl

/-- C5 corrected: a malformed assertion is denied with 400; a replayed
or unverifiable payment, including the case in which both the
facilitator and the chain are unreachable, is denied with 403; every
denial carries status 400 or 403, so 500 is never produced by the
payment gate. -/
theorem C5_deny_statuses (wallet : String) (fac : FacilitatorOutcome)
    (chain : ChainEnv) (price timestamp : String) (reqCoin : Option String)
    (paymentsDB : List PaymentRecord) (header : Header) :
    ((x402Middleware wallet fac chain price timestamp reqCoin paymentsDB .malformed).decision
        = .deny 400 "Payment verification failed")
    ∧ (∀ paymentData : PaymentData,
        (x402Middleware wallet .networkError .unreachable price timestamp reqCoin paymentsDB
          (.valid paymentData)).decision =
            .deny 403 "Could not verify payment with facilitator")
    ∧ (∀ s msg,
        (x402Middleware wallet fac chain price timestamp reqCoin paymentsDB header).decision
          = .deny s msg → s = 400 ∨ s = 403) := by
  refine ⟨rfl, fun _ => rfl, ?_⟩
  intro s msg h
  cases header with
  | absent => simp [x402Middleware] at h
  | malformed =>
    simp [x402Middleware] at h
    exact Or.inl h.1.symm
  | valid p =>
    cases hv : verifyPaymentWithFacilitator wallet fac chain p price with
    | false =>
      simp [x402Middleware, hv] at h
      exact Or.inr h.1.symm
    | true =>
      cases ha : paymentsDB.any (fun r => r.id == paymentId p) with
      | true =>
        simp [x402Middleware, hv, ha] at h
        exact Or.inr h.1.symm
      | false => simp [x402Middleware, hv, ha] at h

/-- C5 witness: the status taxonomy applied to the malformed-header
denial. -/
theorem C5_witness : (400 : Nat) = 400 ∨ (400 : Nat) = 403 :=
  (C5_deny_statuses "w" .networkError .unreachable "0.03" "t" none [] .malformed).2.2
    400 "Payment verification failed" rfl

/-- C1: the ledger never comes to hold two records with the same
identifier (one middleware step preserves the no-duplicate invariant),
and two middleware calls presenting the same assertion admit at most
once: once the first has admitted, a second call with the same payload
against the resulting ledger cannot admit.  The membership check and
the append are adjacent synchronous steps in the source, hence atomic
under the single-threaded event loop. -/
theorem C1_replay_protection (wallet₁ wallet₂ : String)
    (fac₁ fac₂ : FacilitatorOutcome) (chain₁ chain₂ : ChainEnv)
    (price₁ price₂ timestamp₁ timestamp₂ : String) (reqCoin₁ reqCoin₂ : Option String)
    (paymentsDB : List PaymentRecord) (header : Header) (paymentData : PaymentData)
    (hnodup : ledgerNoDupIds paymentsDB) :
    ledgerNoDupIds
      (x402Middleware wallet₁ fac₁ chain₁ price₁ timestamp₁ reqCoin₁ paymentsDB
        header).paymentsDB
    ∧ ((x402Middleware wallet₁ fac₁ chain₁ price₁ timestamp₁ reqCoin₁ paymentsDB
          (.valid paymentData)).decision = .admitted →
        (x402Middleware wallet₂ fac₂ chain₂ price₂ timestamp₂ reqCoin₂
          (x402Middleware wallet₁ fac₁ chain₁ price₁ timestamp₁ reqCoin₁ paymentsDB
            (.valid paymentData)).paymentsDB
          (.valid paymentData)).decision ≠ .admitted) := by
  constructor
  · cases header with
    | absent => exact hnodup
    | malformed => exact hnodup
    | valid p =>
      cases hv : verifyPaymentWithFacilitator wallet₁ fac₁ chain₁ p price₁ with
      | false => simpa [x402Middleware, hv] using hnodup
      | true =>
        cases ha : paymentsDB.any (fun r => r.id == paymentId p) with
        | true => simpa [x402Middleware, hv, ha] using hnodup
        | false =>
          have hdb : (x402Middleware wallet₁ fac₁ chain₁ price₁ timestamp₁ reqCoin₁
              paymentsDB (.valid p)).paymentsDB =
              paymentsDB ++ [⟨paymentId p, timestamp₁, price₁,
                jsOrDefault reqCoin₁ "unknown", jsOrDefault p.fromAddr "unknown"⟩] := by
            simp [x402Middleware, hv, ha]
          rw [hdb]
          unfold ledgerNoDupIds
          rw [List.pairwise_append]
          refine ⟨hnodup, List.pairwise_singleton _ _, ?_⟩
          intro a hain b hbin
          rw [List.mem_singleton] at hbin
          subst hbin
          have hne := List.any_eq_false.mp ha a hain
          simpa using hne
  · intro hadmit
    cases hv : verifyPaymentWithFacilitator wallet₁ fac₁ chain₁ paymentData price₁ with
    | false => simp [x402Middleware, hv] at hadmit
    | true =>
      cases ha : paymentsDB.any (fun r => r.id == paymentId paymentData) with
      | true => simp [x402Middleware, hv, ha] at hadmit
      | false =>
        have hdb : (x402Middleware wallet₁ fac₁ chain₁ price₁ timestamp₁ reqCoin₁
            paymentsDB (.valid paymentData)).paymentsDB =
            paymentsDB ++ [⟨paymentId paymentData, timestamp₁, price₁,
              jsOrDefault reqCoin₁ "unknown", jsOrDefault paymentData.fromAddr "unknown"⟩] := by
          simp [x402Middleware, hv, ha]
        rw [hdb]
        cases hv₂ : verifyPaymentWithFacilitator wallet₂ fac₂ chain₂ paymentData price₂ with
        | false => simp [x402Middleware, hv₂]
        | true =>
          have ha₂ : (paymentsDB ++ [(⟨paymentId paymentData, timestamp₁, price₁,
              jsOrDefault reqCoin₁ "unknown",
              jsOrDefault paymentData.fromAddr "unknown"⟩ : PaymentRecord)]).any
              (fun r => r.id == paymentId paymentData) = true := by
            simp
          simp [x402Middleware, hv₂, ha₂]

/-- C1 witness: a fresh ledger, one admitted payment with a concrete
transaction hash, and the same assertion replayed and refused. -/
theorem C1_witness :
    ledgerNoDupIds
      (x402Middleware "w" (.response true "confirmed") .unreachable "0.03" "t1" none []
        (.valid ⟨some "0xdead", none, none⟩)).paymentsDB
    ∧ (x402Middleware "w" (.response true "confirmed") .unreachable "0.03" "t2" none
        (x402Middleware "w" (.response true "confirmed") .unreachable "0.03" "t1" none []
          (.valid ⟨some "0xdead", none, none⟩)).paymentsDB
        (.valid ⟨some "0xdead", none, none⟩)).decision ≠ .admitted :=
  ⟨(C1_replay_protection "w" "w" (.response true "confirmed") (.response true "confirmed")
      .unreachable .unreachable "0.03" "0.03" "t1" "t2" none none []
      (.valid ⟨some "0xdead", none, none⟩) ⟨some "0xdead", none, none⟩
      List.Pairwise.nil).1,
   (C1_replay_protection "w" "w" (.response true "confirmed") (.response true "confirmed")
      .unreachable .unreachable "0.03" "0.03" "t1" "t2" none none []
      (.valid ⟨some "0xdead", none, none⟩) ⟨some "0xdead", none, none⟩
      List.Pairwise.nil).2 rfl⟩

/-- Rounding after scaling, as toFixed does, is monotone. -/
theorem toFixed_mono (digits : Nat) {x y : ℚ} (h : x ≤ y) :
    toFixed digits x ≤ toFixed digits y := by
  unfold toFixed
  have hp : (0 : ℚ) < 10 ^ digits := by positivity
  have hr : round (x * 10 ^ digits) ≤ round (y * 10 ^ digits) := by
    rw [round_eq, round_eq]
    exact Int.floor_mono (by nlinarith)
  exact div_le_div_of_nonneg_right (by exact_mod_cast hr) hp.le

/-- Rounding to three digits fixes -1. -/
theorem toFixed3_neg_one : toFixed 3 (-1) = -1 := by
  norm_num [toFixed, round_eq]

/-- Rounding to three digits fixes 1. -/
theorem toFixed3_one : toFixed 3 1 = 1 := by
  norm_num [toFixed, round_eq]

/-- Rounding to two digits fixes 0. -/
theorem toFixed2_zero : toFixed 2 0 = 0 := by
  norm_num [toFixed, round_eq]

/-- Rounding to two digits fixes the 0.95 confidence cap. -/
theorem toFixed2_cap : toFixed 2 (19 / 20) = 19 / 20 := by
  norm_num [toFixed, round_eq]

/-- The clamped weighted average lies between -1 and 1 for every scorer
and weighting. -/
theorem vaderNormalizedScore_bounds (scorer : String → ℚ) (log10 : ℚ → ℚ)
    (postsToAnalyze : List Post) :
    -1 ≤ vaderNormalizedScore scorer log10 postsToAnalyze
    ∧ vaderNormalizedScore scorer log10 postsToAnalyze ≤ 1 := by
  unfold vaderNormalizedScore
  exact ⟨le_max_left _ _, max_le (by norm_num) (min_le_left _ _)⟩

/-- The confidence lies between 0 and 0.95 for every breakdown. -/
theorem vaderConfidence_bounds (breakdown : Breakdown) :
    0 ≤ vaderConfidence breakdown ∧ vaderConfidence breakdown ≤ 19 / 20 := by
  refine ⟨?_, min_le_right _ _⟩
  simp only [vaderConfidence]
  apply le_min ?_ (by norm_num)
  apply add_nonneg
  · apply mul_nonneg ?_ (by norm_num)
    split_ifs
    · positivity
    · exact le_refl 0
  · apply mul_nonneg ?_ (by norm_num)
    exact le_min (by positivity) (by norm_num)

/-- C8: for every mention list, scorer, engagement weighting and coin,
the aggregation output of analyzeWithVader satisfies score between -1
and 1 and confidence between 0 and 0.95: the weighted average is
clamped and the confidence is capped below certainty. -/
theorem C8_score_confidence_bounds (scorer : String → ℚ) (log10 : ℚ → ℚ)
    (coinNames : String → Option String) (posts : List Post) (coin : String) :
    -1 ≤ (analyzeWithVader scorer log10 coinNames posts coin).score
    ∧ (analyzeWithVader scorer log10 coinNames posts coin).score ≤ 1
    ∧ 0 ≤ (analyzeWithVader scorer log10 coinNames posts coin).confidence
    ∧ (analyzeWithVader scorer log10 coinNames posts coin).confidence ≤ 19 / 20 := by
  by_cases hp : posts = []
  · subst hp
    refine ⟨by norm_num [analyzeWithVader], by norm_num [analyzeWithVader],
      by norm_num [analyzeWithVader], by norm_num [analyzeWithVader]⟩
  · have hscore : (analyzeWithVader scorer log10 coinNames posts coin).score =
        toFixed 3 (vaderNormalizedScore scorer log10
          (vaderPostsToAnalyze coinNames posts coin)) := by
      simp [analyzeWithVader, hp]
    have hconf : (analyzeWithVader scorer log10 coinNames posts coin).confidence =
        toFixed 2 (vaderConfidence (vaderBreakdown (fun post => scorer (vaderText post))
          (vaderPostsToAnalyze coinNames posts coin))) := by
      simp [analyzeWithVader, hp]
    rw [hscore, hconf]
    have hns := vaderNormalizedScore_bounds scorer log10
      (vaderPostsToAnalyze coinNames posts coin)
    have hcf := vaderConfidence_bounds (vaderBreakdown (fun post => scorer (vaderText post))
      (vaderPostsToAnalyze coinNames posts coin))
    refine ⟨?_, ?_, ?_, ?_⟩
    · calc (-1 : ℚ) = toFixed 3 (-1) := toFixed3_neg_one.symm
        _ ≤ _ := toFixed_mono 3 hns.1
    · calc toFixed 3 _ ≤ toFixed 3 1 := toFixed_mono 3 hns.2
        _ = 1 := toFixed3_one
    · calc (0 : ℚ) = toFixed 2 0 := toFixed2_zero.symm
        _ ≤ _ := toFixed_mono 2 hcf.1
    · calc toFixed 2 _ ≤ toFixed 2 (19 / 20) := toFixed_mono 2 hcf.2
        _ = 19 / 20 := toFixed2_cap

/-- The dedupe filter only drops elements: its output is a sublist of
its input, in the original order. -/
theorem dedupeAux_sublist (seen : List String) (l : List Post) :
    (dedupeAux seen l).Sublist l := by
  induction l generalizing seen with
  | nil => exact List.Sublist.refl _
  | cons p ps ih =>
    simp only [dedupeAux]
    split
    · exact (ih seen).trans (List.sublist_cons_self p ps)
    · exact (ih _).cons₂ p

/-- A post surviving the dedupe filter has a key outside the seen-set
the filter started from. -/
theorem mem_dedupeAux_not_seen {p : Post} :
    ∀ {seen : List String} {l : List Post}, p ∈ dedupeAux seen l →
      dedupeKey p ∉ seen := by
  intro seen l
  induction l generalizing seen with
  | nil => intro h; simp [dedupeAux] at h
  | cons q ps ih =>
    intro h
    simp only [dedupeAux] at h
    split at h
    · exact ih h
    · rename_i hq
      rcases List.mem_cons.mp h with rfl | hmem
      · simpa using hq
      · exact fun hmemseen => ih hmem (List.mem_cons_of_mem _ hmemseen)

/-- The dedupe filter output has pairwise distinct keys. -/
theorem dedupeAux_pairwise (seen : List String) (l : List Post) :
    (dedupeAux seen l).Pairwise (fun a b => dedupeKey a ≠ dedupeKey b) := by
  induction l generalizing seen with
  | nil => exact List.Pairwise.nil
  | cons q ps ih =>
    simp only [dedupeAux]
    split
    · exact ih seen
    · refine List.Pairwise.cons ?_ (ih _)
      intro b hb hqb
      exact mem_dedupeAux_not_seen hb (hqb ▸ List.mem_cons_self _ _)

/-- A list whose keys avoid the seen-set and are pairwise distinct
passes the dedupe filter unchanged. -/
theorem dedupeAux_of_disjoint {seen : List String} {l : List Post}
    (h₁ : ∀ p ∈ l, dedupeKey p ∉ seen)
    (h₂ : l.Pairwise (fun a b => dedupeKey a ≠ dedupeKey b)) :
    dedupeAux seen l = l := by
  induction l generalizing seen with
  | nil => rfl
  | cons q ps ih =>
    have hq : seen.contains (dedupeKey q) = false := by
      simpa using h₁ q (List.mem_cons_self q ps)
    rw [List.pairwise_cons] at h₂
    simp only [dedupeAux, hq]
    simp only [Bool.false_eq_true, if_false]
    congr 1
    apply ih
    · intro p hp
      rw [List.mem_cons]
      rintro (heq | hmemseen)
      · exact h₂.1 p hp heq.symm
      · exact h₁ p (List.mem_cons_of_mem _ hp) hmemseen
    · exact h₂.2

/-- The dedupe filter keeps, for every key outside the seen-set, the
first occurrence with that key: searching the filtered list for a key
finds the same element as searching the original list. -/
theorem dedupeAux_find? {k : String} :
    ∀ {seen : List String} {l : List Post}, k ∉ seen →
      (dedupeAux seen l).find? (fun p => dedupeKey p == k) =
        l.find? (fun p => dedupeKey p == k) := by
  intro seen l
  induction l generalizing seen with
  | nil => intro _; rfl
  | cons q ps ih =>
    intro hk
    simp only [dedupeAux]
    split
    · rename_i hq
      have hne : (dedupeKey q == k) = false := by
        by_contra hcon
        rw [Bool.not_eq_false, beq_iff_eq] at hcon
        subst hcon
        exact hk (by simpa using hq)
      simp only [List.find?_cons, hne]
      exact ih hk
    · cases hqk : dedupeKey q == k with
      | false =>
        simp only [List.find?_cons, hqk]
        apply ih
        rw [List.mem_cons]
        rintro (heq | hmemseen)
        · rw [heq] at hqk
          simp at hqk
        · exact hk hmemseen
      | true => simp only [List.find?_cons, hqk]

/-- C9 counterexample: two posts with the same 50-character title
key but texts that differ inside the case-folded truncated text: the
filter treats them as duplicates and drops the second, although the
text-based equality of the claim separates them, so the equality key is
the title, not the text. -/
theorem C9_counterexample_title_not_text :
    dedupe [⟨"Hello", "AAA", 0, 0, "r"⟩, ⟨"Hello", "BBB", 0, 0, "r"⟩] =
      [⟨"Hello", "AAA", 0, 0, "r"⟩]
    ∧ specTextKey ⟨"Hello", "AAA", 0, 0, "r"⟩ ≠ specTextKey ⟨"Hello", "BBB", 0, 0, "r"⟩ := by
  exact ⟨rfl, by decide⟩

/-- C9 corrected: with the equality key the code actually uses — the
case-folded 50-character truncation of the mention title, not of the
full text — the deduplicator is idempotent, its output is a subsequence
of its input with pairwise distinct keys, and for each key the first
occurrence in the input is the one kept. -/
theorem C9_dedupe_idempotent (M : List Post) :
    dedupe (dedupe M) = dedupe M
    ∧ (dedupe M).Sublist M
    ∧ (dedupe M).Pairwise (fun a b => dedupeKey a ≠ dedupeKey b)
    ∧ ∀ k, (dedupe M).find? (fun p => dedupeKey p == k) =
        M.find? (fun p => dedupeKey p == k) := by
  refine ⟨?_, dedupeAux_sublist [] M, dedupeAux_pairwise [] M, ?_⟩
  · exact dedupeAux_of_disjoint (fun p _ => List.not_mem_nil _)
      (dedupeAux_pairwise [] M)
  · intro k
    exact dedupeAux_find? (List.not_mem_nil k)

/-- C9 witness: the deduplicator properties evaluated on a concrete
two-post list with a repeated title. -/
theorem C9_witness :
    dedupe (dedupe [⟨"Buy BTC", "a", 3, 1, "r1"⟩, ⟨"BUY btc", "b", 2, 0, "r2"⟩]) =
      dedupe [⟨"Buy BTC", "a", 3, 1, "r1"⟩, ⟨"BUY btc", "b", 2, 0, "r2"⟩]
    ∧ (dedupe [⟨"Buy BTC", "a", 3, 1, "r1"⟩, ⟨"BUY btc", "b", 2, 0, "r2"⟩]).Sublist
        [⟨"Buy BTC", "a", 3, 1, "r1"⟩, ⟨"BUY btc", "b", 2, 0, "r2"⟩]
    ∧ (dedupe [⟨"Buy BTC", "a", 3, 1, "r1"⟩, ⟨"BUY btc", "b", 2, 0, "r2"⟩]).Pairwise
        (fun a b => dedupeKey a ≠ dedupeKey b)
    ∧ ∀ k, (dedupe [⟨"Buy BTC", "a", 3, 1, "r1"⟩,
          ⟨"BUY btc", "b", 2, 0, "r2"⟩]).find? (fun p => dedupeKey p == k) =
        [⟨"Buy BTC", "a", 3, 1, "r1"⟩,
          ⟨"BUY btc", "b", 2, 0, "r2"⟩].find? (fun p => dedupeKey p == k) :=
  C9_dedupe_idempotent [⟨"Buy BTC", "a", 3, 1, "r1"⟩, ⟨"BUY btc", "b", 2, 0, "r2"⟩]

end CryptoSentiment
